import Mathlib

/-!
Verification development for the FormFit order-pipeline server.

The JavaScript sources are shallowly embedded as Lean definitions:

* string-handling primitives used by the code (`includes`, `toUpperCase`,
  `toLowerCase`, `trim`, regex split) are modelled over `List Char`;
* the conversation state machine of `src/conversation.js` becomes a family of
  pure functions threading an explicit database value (`ConvDb`);
* the pipeline orchestrator of `src/pipeline.js` becomes a pure function over
  an explicit order table plus an environment record holding the outcomes of
  the external services (ToolTrace, Craftcloud, status writes);
* the quote combination and cheapest-quote selection of `src/craftcloud.js`
  (steps 5 and 6 of `uploadAndQuote`) become list functions;
* the generic `updateOrder` of `src/db.js` is modelled over rows given as
  column valuations `String → α`.

Numeric columns (REAL in the schema, IEEE doubles in JS) are modelled as `Rat`;
no claim under verification depends on floating-point rounding. Timestamp
columns (`created_at`, `updated_at`) are omitted from the structured `Order`
record used by the state machine and pipeline — no claim about those
components concerns them; the row-valuation model of `updateOrder` does
carry `updated_at`.
-/

namespace FormFit

/-! ### JavaScript string primitives -/

/-- Model of `String.prototype.toUpperCase` (ASCII, as used by the code). -/
def jsUpper (s : String) : String := String.mk (s.data.map Char.toUpper)

/-- Model of `String.prototype.toLowerCase` (ASCII, as used by the code). -/
def jsLower (s : String) : String := String.mk (s.data.map Char.toLower)

/-- Helper for `jsIncludes`: list version of a starts-with test. -/
def startsWithList : List Char → List Char → Bool
  | [], _ => true
  | _ :: _, [] => false
  | a :: as, b :: bs => a == b && startsWithList as bs

/-- Helper for `jsIncludes`: does `p` occur contiguously inside the list? -/
def occursIn (p : List Char) : List Char → Bool
  | [] => p.isEmpty
  | c :: rest => startsWithList p (c :: rest) || occursIn p rest

/-- Model of `String.prototype.includes`. -/
def jsIncludes (s pat : String) : Bool := occursIn pat.data s.data

/-- Whitespace recognised by `String.prototype.trim` and by the regex
class `\s` (restricted to the ASCII whitespace actually relevant here). -/
def jsIsSpace (c : Char) : Bool :=
  c == ' ' || c == '\t' || c == '\n' || c == '\r' || c == '\x0c' || c == '\x0b'

/-- Model of `String.prototype.trim`. -/
def jsTrim (s : String) : String :=
  String.mk (((s.data.dropWhile (jsIsSpace ·)).reverse.dropWhile (jsIsSpace ·)).reverse)

/-- Separator class of the regex `[\s,./]` used by `parseDetails`. -/
def isSepChar (c : Char) : Bool :=
  jsIsSpace c || c == ',' || c == '.' || c == '/'

/-- Split a character list at every separator character. The JS code splits
on `[\s,./]+`, which additionally collapses runs of separators; the collapse
only removes empty tokens, and every use site filters tokens by length
immediately afterwards, so the two agree after that filter. -/
def splitChars (p : Char → Bool) : List Char → List (List Char)
  | [] => [[]]
  | c :: cs =>
    if p c then [] :: splitChars p cs
    else
      match splitChars p cs with
      | t :: ts => (c :: t) :: ts
      | [] => [[c]]

/-- `text.split(/[\s,./]+/).filter(w => w.length > 1)` from `parseDetails`. -/
def tokensOf (text : String) : List String :=
  ((splitChars isSepChar text.data).map String.mk).filter (fun w => w.data.length > 1)

/-! ### `parseDetails` (src/conversation.js) -/

/-- Result record of `parseDetails`. -/
structure ParsedDetails where
  material : String
  color : String
  size : String
  deriving DecidableEq, Repr

/-- The `knownWords` stop-word list of `parseDetails`. -/
def knownWords : List String :=
  ["pla", "pla+", "petg", "small", "medium", "large", "full", "drawer",
   "tools", "tool", "and", "the", "i", "want", "would", "like", "please",
   "1", "2", "3", "material", "color", "size", "in", "a"]

/-- Embedding of `parseDetails` from `src/conversation.js`. -/
def parseDetails (text : String) : ParsedDetails :=
  let lower := jsLower text
  let material :=
    if jsIncludes lower "petg" then "PETG"
    else if jsIncludes lower "pla+" then "PLA+"
    else if jsIncludes lower "pla" then "PLA"
    else "PLA"
  let size :=
    if jsIncludes lower "full" || jsIncludes lower "drawer" then "full drawer"
    else if jsIncludes lower "small" then "small"
    else if jsIncludes lower "medium" then "medium"
    else if jsIncludes lower "large" then "full drawer"
    else "medium"
  let words := tokensOf text
  let colorWords := words.filter (fun w => ¬ knownWords.contains (jsLower w))
  let color := if colorWords.isEmpty then "black" else String.intercalate " " colorWords
  { material := material, color := color, size := size }

/-! ### Pricing engine (src/pricing.js) -/

/-- Result record of `calculateQuote`. -/
structure QuoteCalc where
  basePrice : Rat
  addonsPrice : Rat
  shipping : Rat
  total : Rat
  craftcloudCost : Rat
  margin : Rat
  deriving DecidableEq, Repr

/-- Lookup in one of the pricing tables; `dflt` models the
`TABLE[key] || TABLE.medium` / `|| 1.0` fallback (all table entries are
non-zero, so JS truthiness agrees with presence). -/
def lookupTable (tbl : List (String × Rat)) (k : String) (dflt : Rat) : Rat :=
  ((tbl.find? (fun e => e.1 == k)).map (·.2)).getD dflt

/-- `SELF_BASE` table. -/
def SELF_BASE : List (String × Rat) := [("small", 35), ("medium", 75), ("full drawer", 150)]

/-- `MATERIAL_MULT` table. -/
def MATERIAL_MULT : List (String × Rat) := [("pla", 1), ("pla+", 11/10), ("petg", 12/10)]

/-- `SELF_SHIPPING` table. -/
def SELF_SHIPPING : List (String × Rat) := [("small", 8), ("medium", 8), ("full drawer", 15)]

/-- `CLOUD_COST` table. -/
def CLOUD_COST : List (String × Rat) := [("small", 20), ("medium", 45), ("full drawer", 100)]

/-- `CLOUD_SELL` table. -/
def CLOUD_SELL : List (String × Rat) := [("small", 55), ("medium", 110), ("full drawer", 225)]

/-- Model of `Math.round` (round half toward positive infinity). -/
def jsRound (x : Rat) : Int := ⌊x + 1/2⌋

/-- Embedding of `calculateQuote` from `src/pricing.js`. Flags arrive already
coerced to `Bool` (the callers apply `!!`). -/
def calculateQuote (size material fulfillment : String) (rush cadDesign : Bool) : QuoteCalc :=
  let sizeKey := jsLower size
  let matKey := jsLower material
  let mode := jsUpper (if fulfillment = "" then "SELF" else fulfillment)
  if mode = "CLOUD" then
    let cost := lookupTable CLOUD_COST sizeKey 45
    let sell := lookupTable CLOUD_SELL sizeKey 110
    let addons := (if rush then (25 : Rat) else 0) + (if cadDesign then 15 else 0)
    let total := sell + addons
    { basePrice := sell, addonsPrice := addons, shipping := 0, total := total,
      craftcloudCost := cost, margin := total - cost }
  else
    let base := lookupTable SELF_BASE sizeKey 75
    let mult := lookupTable MATERIAL_MULT matKey 1
    let basePrice := (jsRound (base * mult * 100) : Rat) / 100
    let addons := (if rush then (25 : Rat) else 0) + (if cadDesign then 15 else 0)
    let shipping := lookupTable SELF_SHIPPING sizeKey 8
    let total := basePrice + addons + shipping
    let materialCost := (jsRound (base * (3/10) * 100) : Rat) / 100
    { basePrice := basePrice, addonsPrice := addons, shipping := shipping, total := total,
      craftcloudCost := 0, margin := total - materialCost - shipping }

/-- Model of `Number.prototype.toFixed(2)` for the non-negative amounts
printed by `formatProposal`. -/
def fmt2 (x : Rat) : String :=
  let n : Int := jsRound (x * 100)
  let w := n / 100
  let f := (n % 100).toNat
  toString w ++ "." ++ (if f < 10 then "0" else "") ++ toString f

/-! ### Data model (orders table of src/db.js, structured view) -/

/-- One row of the `orders` table, as read and written by the state machine
and the pipeline (timestamp and rowid columns omitted; see the file header). -/
structure Order where
  order_id : String
  psid : String
  name : String
  status : String
  photo_path : String
  material : String
  color : String
  size : String
  fulfillment_type : String
  rush : Int
  cad_design : Int
  base_price : Rat
  addons_price : Rat
  shipping : Rat
  total : Rat
  craftcloud_cost : Rat
  margin : Rat
  stl_path : String
  craftcloud_quote_id : String
  deriving DecidableEq, Repr

/-- The row inserted by `db.createOrder` (all other columns at their schema
defaults). -/
def mkOrder (orderId psid photoPath : String) : Order :=
  { order_id := orderId, psid := psid, name := "", status := "new",
    photo_path := photoPath, material := "", color := "", size := "",
    fulfillment_type := "", rush := 0, cad_design := 0,
    base_price := 0, addons_price := 0, shipping := 0, total := 0,
    craftcloud_cost := 0, margin := 0, stl_path := "", craftcloud_quote_id := "" }

/-- `db.getOrder`: `SELECT * FROM orders WHERE order_id = ?` (first match). -/
def getOrder (orderId : String) (rows : List Order) : Option Order :=
  rows.find? (fun o => o.order_id == orderId)

/-- Specialisation of `db.updateOrder` to the structured `Order` view: every
call site in the state machine and the pipeline passes only keys on the
allow-list, so the update applies `f` to the addressed row and leaves every
other row untouched (the generic allow-list function itself is modelled
below as `updateOrder` for the claims about `src/db.js`). -/
def updateOrderRows (orderId : String) (f : Order → Order) (rows : List Order) : List Order :=
  rows.map (fun o => if o.order_id = orderId then f o else o)

/-- Embedding of `formatProposal` from `src/pricing.js`. -/
def formatProposal (order : Order) (quote : QuoteCalc) : String :=
  let lines : List String :=
    ["📋 *FormFit Custom Quote*", "",
     "Size: " ++ order.size,
     "Material: " ++ order.material,
     "Color: " ++ order.color,
     "Fulfillment: " ++ order.fulfillment_type, "",
     "Base price: $" ++ fmt2 quote.basePrice]
  let lines := lines ++
    (if quote.addonsPrice > 0 then
      let parts := (if order.rush ≠ 0 then ["Rush"] else []) ++
        (if order.cad_design ≠ 0 then ["CAD design"] else [])
      ["Add-ons (" ++ String.intercalate ", " parts ++ "): $" ++ fmt2 quote.addonsPrice]
    else [])
  let lines := lines ++
    (if order.fulfillment_type = "CLOUD" then
      ["Shipping: included", "(Ships directly to you from our fulfillment partner)"]
    else ["Shipping: $" ++ fmt2 quote.shipping])
  let lines := lines ++ ["", "💰 Total: $" ++ fmt2 quote.total]
  let lines := lines ++ ["", "Reply YES to confirm or NO to cancel."]
  String.intercalate "\n" lines

/-! ### Conversation state machine (src/conversation.js)

The per-customer database slice: the `conversation_state` row of the customer, the
orders table, and the `messages` log. The `sent` transcript records every
`sendText` call of the turn (the transport is fire-and-forget: a delivery
failure is logged and changes nothing observable, so the transcript records
the attempts themselves). A handler returns the database after its writes
plus `Option String`: `some e` when the JS code would throw `e` out of the
handler (one site can: `handleDetailsReceived` reading a property of an
`undefined` order), `none` when the turn completes normally. -/

/-- One row of the `messages` table (timestamp omitted). -/
structure Msg where
  direction : String
  text : String
  deriving DecidableEq, Repr

/-- One row of `conversation_state` (timestamp omitted). -/
structure ConvState where
  stage : String
  pending_order_id : String
  deriving DecidableEq, Repr

/-- The database as seen by the conversation turn of one customer. -/
structure ConvDb where
  state : ConvState
  orders : List Order
  messages : List Msg
  sent : List String
  deriving DecidableEq, Repr

/-- One inbound attachment; `payloadUrl = some u` models
`att.payload && att.payload.url` both present. -/
structure Att where
  type : String
  payloadUrl : Option String
  deriving DecidableEq, Repr

/-- One inbound Messenger message (`message.text || ''` is the empty string
when absent, `message.attachments || []` the empty list). -/
structure InMsg where
  text : String
  attachments : List Att
  deriving DecidableEq, Repr

/-- Outcomes of the external calls a conversation turn can make:
`download` is the path returned by `downloadAttachment` (empty on failure),
`newOrderId` the id `generateOrderId` produces for `createOrder`. -/
structure ConvEnv where
  download : String
  newOrderId : String

/-- `sendText`: fire-and-forget delivery, recorded in the transcript. -/
def sendText (t : String) (db : ConvDb) : ConvDb :=
  { db with sent := db.sent ++ [t] }

/-- `db.saveMessage` with direction "out". -/
def saveMessageOut (t : String) (db : ConvDb) : ConvDb :=
  { db with messages := db.messages ++ [⟨"out", t⟩] }

/-- `db.setState(psid, stage, pendingOrderId)`. -/
def setState (stage pendingOrderId : String) (db : ConvDb) : ConvDb :=
  { db with state := ⟨stage, pendingOrderId⟩ }

/-- The welcome reply of `handleNew`. -/
def welcomeReply : String :=
  "Hey! 👋 Welcome to FormFit Custom. I\x27m Mango, your order assistant. Send me a photo of your tools laid out flat on a piece of paper and we\x27ll get you a custom quote!"

/-- The reply of `processPhoto`. -/
def photoReply : String :=
  "Got your photo! 🔧 A couple quick questions:\n1️⃣ What material do you want? (PLA / PETG / PLA+)\n2️⃣ What color?\n3️⃣ Rough size — Small (1-2 tools), Medium (5-10 tools), or Full Drawer?"

/-- The empty-text re-prompt of `handlePhotoReceived`. -/
def detailsReprompt : String :=
  "Please reply with your material, color, and size preferences."

/-- The SELF-or-CLOUD question of `handlePhotoReceived`. -/
def fulfillmentQuestion : String :=
  "Perfect. Do you want us to print it, or would you like a cloud-printed option shipped directly to you?\n(Reply: SELF or CLOUD)"

/-- The confirmation reply of `handleQuoteSent` (order id appended). -/
def confirmedReply (orderId : String) : String :=
  "You\x27re confirmed! 🎉 We\x27ll be in touch when your order ships. Order ID: " ++ orderId

/-- The cancellation reply of `handleQuoteSent`. -/
def cancelledReply : String :=
  "No worries — order cancelled. Send a new photo anytime to start a fresh quote!"

/-- The yes-or-no re-prompt of `handleQuoteSent`. -/
def quoteReprompt : String :=
  "Reply YES to confirm your order or NO to cancel."

/-- The returning-customer reply of `handleConfirmed`. -/
def welcomeBackReply : String :=
  "Welcome back! 🙌 Send a new photo to start another order."

/-- `processPhoto`: download the image, create the order, move to
`PHOTO_RECEIVED`, send and log the spec-request reply. -/
def processPhoto (env : ConvEnv) (psid : String) (attachments : List Att)
    (db : ConvDb) : ConvDb × Option String :=
  let imageAtt := attachments.find? (fun a => a.type == "image")
  let photoPath :=
    match imageAtt with
    | some a => match a.payloadUrl with
      | some _ => env.download
      | none => ""
    | none => ""
  let orderId := env.newOrderId
  let db := { db with orders := db.orders ++ [mkOrder orderId psid photoPath] }
  let db := setState "PHOTO_RECEIVED" orderId db
  (saveMessageOut photoReply (sendText photoReply db), none)

/-- `handleNew`. -/
def handleNew (env : ConvEnv) (psid : String) (_text : String) (hasImage : Bool)
    (attachments : List Att) (db : ConvDb) : ConvDb × Option String :=
  if hasImage then processPhoto env psid attachments db
  else (saveMessageOut welcomeReply (sendText welcomeReply db), none)

/-- `handlePhotoReceived`. Note: the empty-text re-prompt is sent but not
logged by the source. -/
def handlePhotoReceived (_psid text : String) (db : ConvDb) : ConvDb × Option String :=
  if text = "" then (sendText detailsReprompt db, none)
  else
    let orderId := db.state.pending_order_id
    let parsed := parseDetails text
    let orders1 := updateOrderRows orderId
      (fun o => { o with material := parsed.material, color := parsed.color,
                         size := parsed.size }) db.orders
    let db := { db with orders := orders1 }
    let db := setState "DETAILS_RECEIVED" orderId db
    (saveMessageOut fulfillmentQuestion (sendText fulfillmentQuestion db), none)

/-- `handleDetailsReceived`. When `db.getOrder(orderId)` is `undefined` the
JS code throws while reading `order.size`; the fulfillment write (a no-op on
a missing row) has already happened at that point. -/
def handleDetailsReceived (_psid text : String) (db : ConvDb) : ConvDb × Option String :=
  let upper := jsUpper text
  let orderId := db.state.pending_order_id
  let fulfillment := if jsIncludes upper "CLOUD" then "CLOUD" else "SELF"
  let orders1 := updateOrderRows orderId
    (fun o => { o with fulfillment_type := fulfillment }) db.orders
  let db := { db with orders := orders1 }
  match getOrder orderId db.orders with
  | none => (db, some "TypeError: Cannot read properties of undefined (reading \x27size\x27)")
  | some order =>
    let quote := calculateQuote order.size order.material fulfillment
      (order.rush ≠ 0) (order.cad_design ≠ 0)
    let orders2 := updateOrderRows orderId
      (fun o =>
        { o with base_price := quote.basePrice, addons_price := quote.addonsPrice,
                 shipping := quote.shipping, total := quote.total,
                 craftcloud_cost := quote.craftcloudCost, margin := quote.margin }) db.orders
    let db := { db with orders := orders2 }
    let proposal := formatProposal order quote
    let db := setState "QUOTE_SENT" orderId db
    (saveMessageOut proposal (sendText proposal db), none)

/-- `handleQuoteSent`. Note: the unrecognized-text re-prompt is sent but not
logged by the source. -/
def handleQuoteSent (_psid text : String) (db : ConvDb) : ConvDb × Option String :=
  let upper := jsUpper text
  let orderId := db.state.pending_order_id
  if jsIncludes upper "YES" || jsIncludes upper "CONFIRM" || jsIncludes upper "APPROVE" then
    let orders1 := updateOrderRows orderId (fun o => { o with status := "confirmed" }) db.orders
    let db := { db with orders := orders1 }
    let db := setState "CONFIRMED" orderId db
    let reply := confirmedReply orderId
    (saveMessageOut reply (sendText reply db), none)
  else if jsIncludes upper "NO" || jsIncludes upper "CANCEL" then
    let orders1 := updateOrderRows orderId (fun o => { o with status := "cancelled" }) db.orders
    let db := { db with orders := orders1 }
    let db := setState "NEW" "" db
    (saveMessageOut cancelledReply (sendText cancelledReply db), none)
  else
    (sendText quoteReprompt db, none)

/-- `handleConfirmed`. -/
def handleConfirmed (env : ConvEnv) (psid : String) (_text : String) (hasImage : Bool)
    (attachments : List Att) (db : ConvDb) : ConvDb × Option String :=
  if hasImage then processPhoto env psid attachments db
  else
    let db := setState "NEW" "" db
    (saveMessageOut welcomeBackReply (sendText welcomeBackReply db), none)

/-- Embedding of `handleIncoming` from `src/conversation.js`. The `switch`
on `state.stage` becomes a chain of string comparisons with the same
fallthrough to the unknown-stage reset. -/
def handleIncoming (env : ConvEnv) (psid : String) (message : InMsg)
    (db : ConvDb) : ConvDb × Option String :=
  let text := jsTrim message.text
  let attachments := message.attachments
  let hasImage := attachments.any (fun a => a.type == "image")
  let st := db.state.stage
  if st = "NEW" then handleNew env psid text hasImage attachments db
  else if st = "PHOTO_RECEIVED" then handlePhotoReceived psid text db
  else if st = "DETAILS_RECEIVED" then handleDetailsReceived psid text db
  else if st = "QUOTE_SENT" then handleQuoteSent psid text db
  else if st = "CONFIRMED" then handleConfirmed env psid text hasImage attachments db
  else handleNew env psid text hasImage attachments (setState "NEW" "" db)

/-- The five named stages of the state machine. -/
def stageList : List String :=
  ["NEW", "PHOTO_RECEIVED", "DETAILS_RECEIVED", "QUOTE_SENT", "CONFIRMED"]

/-! ### Craftcloud quote selection (src/craftcloud.js, `uploadAndQuote` steps 5 and 6)

The network steps (upload, parse polling, price polling) deliver a
`quoteData` record with `quotes` and `shippings` arrays; the pure tail of
`uploadAndQuote` combines them per vendor and selects the cheapest total. -/

/-- One entry of `quoteData.quotes`. -/
structure RawQuote where
  quoteId : String
  vendorId : String
  price : Rat
  productionTimeSlow : Option Nat
  productionTimeFast : Option Nat
  deriving DecidableEq, Repr

/-- One entry of `quoteData.shippings`. -/
structure RawShipping where
  vendorId : String
  price : Rat
  shippingId : String
  deriving DecidableEq, Repr

/-- One combined quote as built in step 5 of `uploadAndQuote`. -/
structure CombinedQuote where
  quoteId : String
  vendorId : String
  price : Rat
  leadDays : Option Nat
  shipping : Rat
  shippingId : Option String
  totalPrice : Rat
  deriving DecidableEq, Repr

/-- Step 5 of `uploadAndQuote`: pair each quote with the shipping entry of its vendor
entry (`price` 0 and `shippingId` null when none matches). -/
def combineQuotes (quotes : List RawQuote) (shippings : List RawShipping) :
    List CombinedQuote :=
  quotes.map (fun q =>
    let vendorShipping := shippings.find? (fun s => s.vendorId == q.vendorId)
    { quoteId := q.quoteId, vendorId := q.vendorId, price := q.price,
      leadDays := match q.productionTimeSlow with
        | some d => some d
        | none => q.productionTimeFast,
      shipping := (vendorShipping.map (·.price)).getD 0,
      shippingId := vendorShipping.map (·.shippingId),
      totalPrice := q.price + (vendorShipping.map (·.price)).getD 0 })

/-- Insert into a list kept ascending by `totalPrice`. -/
def insertByTotal (q : CombinedQuote) : List CombinedQuote → List CombinedQuote
  | [] => [q]
  | r :: rs => if q.totalPrice ≤ r.totalPrice then q :: r :: rs else r :: insertByTotal q rs

/-- Step 6 of `uploadAndQuote`: `quotes.sort((a, b) => a.totalPrice - b.totalPrice)`,
modelled as an insertion sort on `totalPrice` (the claims under verification
concern the minimality of the head and its invariance under permutation of
the input, both independent of which comparison sort is used). -/
def sortByTotal : List CombinedQuote → List CombinedQuote
  | [] => []
  | q :: qs => insertByTotal q (sortByTotal qs)

/-- Result record of `uploadAndQuote` (the `modelId` of the network layer is
omitted). -/
structure UploadAndQuoteResult where
  bestQuote : Option CombinedQuote
  allQuotes : List CombinedQuote
  deriving DecidableEq, Repr

/-- The pure tail of `uploadAndQuote`: combine, sort, pick `quotes[0] || null`. -/
def uploadAndQuote (quotes : List RawQuote) (shippings : List RawShipping) :
    UploadAndQuoteResult :=
  let sorted := sortByTotal (combineQuotes quotes shippings)
  { bestQuote := sorted.head?, allQuotes := sorted }

/-! ### Pipeline orchestrator (src/pipeline.js) -/

/-- The final outcome of one `tooltrace.processImage` call (the browser
automation and its internal 2-attempt retry loop are the external service;
the pipeline observes only this returned record). -/
structure TraceResult where
  success : Bool
  stlPath : String
  error : String
  deriving DecidableEq, Repr

/-- The vendor-quote summary embedded in a successful CLOUD result. -/
structure QuoteSummary where
  quoteId : String
  totalPrice : Rat
  vendorId : String
  leadDays : Option Nat
  deriving DecidableEq, Repr

/-- The structured result of `runOrderPipeline`. -/
structure PipeResult where
  success : Bool
  orderId : String
  stlPath : Option String
  craftcloudQuote : Option QuoteSummary
  error : Option String
  deriving DecidableEq, Repr

/-- Outcomes of the external calls one pipeline run can make:
`trace` is what `tooltrace.processImage` would return, `quoteOutcome` what
`craftcloud.uploadAndQuote` would produce (`Except.error` for a thrown fault,
`Except.ok none` when `bestQuote` is null), `apiKeySet` whether
`CRAFTCLOUD_API_KEY` is configured, `placeOutcome` the result of
`craftcloud.placeOrder`, and `statusWriteFails` whether the guarded
`db.updateOrder` writing status "error" in the catch block would throw. -/
structure PipeEnv where
  trace : TraceResult
  quoteOutcome : Except String (Option CombinedQuote)
  apiKeySet : Bool
  placeOutcome : Except String String
  statusWriteFails : Bool

/-- Whether an `Except` is a success. -/
def exceptOk {ε α : Type} : Except ε α → Bool
  | .ok _ => true
  | .error _ => false

/-- The observable outcome of one pipeline run: the returned result record, the
orders table after the writes of the run, and how many times
`tooltrace.processImage` was invoked. -/
structure RunOut where
  res : PipeResult
  db : List Order
  traceCalls : Nat
  deriving Repr

/-- The catch block of `runOrderPipeline`: best-effort status write (its own
failure swallowed) and the structured failure result. -/
def failWith (env : PipeEnv) (orderId msg : String) (db : List Order)
    (traceCalls : Nat) : RunOut :=
  let db' := if env.statusWriteFails then db
    else updateOrderRows orderId (fun o => { o with status := "error" }) db
  { res := { success := false, orderId := orderId, stlPath := none,
             craftcloudQuote := none, error := some msg },
    db := db', traceCalls := traceCalls }

/-- `handleCloudFulfillment`. A throw inside it (no quote, or a fault from
the quoting call) propagates to the catch block of the caller, i.e. `failWith`
applied to the database as it stands at the throw site. -/
def handleCloudFulfillment (env : PipeEnv) (orderId : String) (_order : Order)
    (stlPath : String) (db : List Order) (traceCalls : Nat) : RunOut :=
  match env.quoteOutcome with
  | .error e => failWith env orderId e db traceCalls
  | .ok none => failWith env orderId "No Craftcloud quotes returned" db traceCalls
  | .ok (some best) =>
    let db1 := updateOrderRows orderId
      (fun o => { o with craftcloud_cost := best.totalPrice,
                         craftcloud_quote_id := best.quoteId }) db
    let db2 :=
      if env.apiKeySet then
        match env.placeOutcome with
        | .ok _ => updateOrderRows orderId (fun o => { o with status := "in-progress" }) db1
        | .error _ => db1
      else db1
    let summary : QuoteSummary :=
      { quoteId := best.quoteId, totalPrice := best.totalPrice,
        vendorId := best.vendorId, leadDays := best.leadDays }
    { res := { success := true, orderId := orderId, stlPath := some stlPath,
               craftcloudQuote := some summary, error := none },
      db := db2, traceCalls := traceCalls }

/-- `handleSelfFulfillment`. -/
def handleSelfFulfillment (orderId stlPath : String) (db : List Order)
    (traceCalls : Nat) : RunOut :=
  { res := { success := true, orderId := orderId, stlPath := some stlPath,
             craftcloudQuote := none, error := none },
    db := updateOrderRows orderId (fun o => { o with status := "in-progress" }) db,
    traceCalls := traceCalls }

/-- Step 2 of `runOrderPipeline`: route by fulfillment type. The `SELF`
branch and the default branch of the source are identical calls, so they
are merged here. -/
def routeFulfillment (env : PipeEnv) (orderId : String) (order : Order)
    (stlPath : String) (db : List Order) (traceCalls : Nat) : RunOut :=
  if jsUpper order.fulfillment_type = "CLOUD" then
    handleCloudFulfillment env orderId order stlPath db traceCalls
  else
    handleSelfFulfillment orderId stlPath db traceCalls

/-- Embedding of `runOrderPipeline` from `src/pipeline.js`. -/
def runOrderPipeline (env : PipeEnv) (orderId : String) (db : List Order) : RunOut :=
  match getOrder orderId db with
  | none => failWith env orderId ("Order " ++ orderId ++ " not found") db 0
  | some order =>
    let stlPath := order.stl_path
    if stlPath = "" then
      if order.photo_path = "" then
        failWith env orderId "Order has no photo — cannot generate STL" db 0
      else
        let tr := env.trace
        if tr.success then
          let stl := tr.stlPath
          let db1 := updateOrderRows orderId (fun o => { o with stl_path := stl }) db
          routeFulfillment env orderId order stl db1 1
        else
          failWith env orderId ("ToolTrace failed: " ++ tr.error) db 1
    else
      routeFulfillment env orderId order stlPath db 0

/-! ### Generic `updateOrder` (src/db.js)

For the frame claims about `db.updateOrder` a row is modelled as a column
valuation `String → α`: `UPDATE orders SET c1 = v1, ..., updated_at =
datetime(now) WHERE order_id = ?` rewrites the listed columns of every row
whose `order_id` column equals the argument and no others. JS objects cannot
carry duplicate keys, so the left-to-right `Object.entries` iteration is
modelled by letting the last matching entry win. -/

/-- The column allow-list of `db.updateOrder`. -/
def allowedCols : List String :=
  ["name", "status", "photo_path", "material", "color", "size",
   "fulfillment_type", "rush", "cad_design", "base_price", "addons_price",
   "shipping", "total", "craftcloud_cost", "margin", "stl_path", "craftcloud_quote_id"]

/-- Apply the filtered `SET` assignments to one row. -/
def applyFields {α : Type} (updates : List (String × α)) (row : String → α) :
    String → α :=
  fun c => match updates.reverse.find? (fun kv => kv.1 == c) with
    | some kv => kv.2
    | none => row c

/-- Embedding of `db.updateOrder(orderId, fields)`; `now` is the value
`datetime(now)` evaluates to. -/
def updateOrder {α : Type} [DecidableEq α] (orderId : α) (fields : List (String × α))
    (now : α) (db : List (String → α)) : List (String → α) :=
  let updates := fields.filter (fun kv => allowedCols.contains kv.1)
  if updates.isEmpty then db
  else
    db.map (fun row =>
      if row "order_id" = orderId then
        fun c => if c = "updated_at" then now else applyFields updates row c
      else row)

/-! ### Basic lemmas about the embedded operations -/

@[simp] theorem state_sendText (t : String) (db : ConvDb) :
    (sendText t db).state = db.state := rfl

@[simp] theorem orders_sendText (t : String) (db : ConvDb) :
    (sendText t db).orders = db.orders := rfl

@[simp] theorem messages_sendText (t : String) (db : ConvDb) :
    (sendText t db).messages = db.messages := rfl

@[simp] theorem sent_sendText (t : String) (db : ConvDb) :
    (sendText t db).sent = db.sent ++ [t] := rfl

@[simp] theorem state_saveMessageOut (t : String) (db : ConvDb) :
    (saveMessageOut t db).state = db.state := rfl

@[simp] theorem orders_saveMessageOut (t : String) (db : ConvDb) :
    (saveMessageOut t db).orders = db.orders := rfl

@[simp] theorem messages_saveMessageOut (t : String) (db : ConvDb) :
    (saveMessageOut t db).messages = db.messages ++ [⟨"out", t⟩] := rfl

@[simp] theorem sent_saveMessageOut (t : String) (db : ConvDb) :
    (saveMessageOut t db).sent = db.sent := rfl

@[simp] theorem state_setState (stage pid : String) (db : ConvDb) :
    (setState stage pid db).state = ⟨stage, pid⟩ := rfl

@[simp] theorem orders_setState (stage pid : String) (db : ConvDb) :
    (setState stage pid db).orders = db.orders := rfl

@[simp] theorem messages_setState (stage pid : String) (db : ConvDb) :
    (setState stage pid db).messages = db.messages := rfl

@[simp] theorem sent_setState (stage pid : String) (db : ConvDb) :
    (setState stage pid db).sent = db.sent := rfl

/-- Looking up the updated id after `updateOrderRows` sees the update,
provided the update function keeps the `order_id` column. -/
theorem getOrder_update_self (orderId : String) (f : Order → Order)
    (hf : ∀ o, (f o).order_id = o.order_id) (rows : List Order) :
    getOrder orderId (updateOrderRows orderId f rows) = (getOrder orderId rows).map f := by
  induction rows with
  | nil => rfl
  | cons a l ih =>
    by_cases h : a.order_id = orderId
    · simp [getOrder, updateOrderRows, List.find?, h, hf a]
    · have hb : (a.order_id == orderId) = false := by
        simpa using h
      simp only [getOrder, updateOrderRows, List.map_cons, List.find?] at ih ⊢
      rw [if_neg h, hb]
      exact ih

/-- A list maps to itself when the function fixes each member. -/
theorem map_eq_self_of {α : Type} (l : List α) (f : α → α)
    (h : ∀ a ∈ l, f a = a) : l.map f = l := by
  induction l with
  | nil => rfl
  | cons a l ih =>
    simp only [List.map_cons, h a (List.mem_cons_self a l)]
    rw [ih (fun b hb => h b (List.mem_cons_of_mem a hb))]

/-! ### C5 — `parseDetails` conforms to the documented parsing policy -/

/-- C5: for every input string, `parseDetails` picks the material by substring
match with priority PETG, then "pla+", then "pla", defaulting to PLA; the size
by "full"/"drawer" before "small" before "medium" before "large" (mapped to
full drawer) with default medium; and the color by tokenizing on
whitespace/comma/period/slash, dropping length-1 tokens and stop-words, and
joining the rest (default black). Parsing "PETG, red, small" yields
material PETG, color "red", size small. -/
theorem parseDetails_policy (text : String) :
    (parseDetails text).material =
      (if jsIncludes (jsLower text) "petg" then "PETG"
       else if jsIncludes (jsLower text) "pla+" then "PLA+"
       else "PLA") ∧
    (parseDetails text).size =
      (if jsIncludes (jsLower text) "full" || jsIncludes (jsLower text) "drawer" then "full drawer"
       else if jsIncludes (jsLower text) "small" then "small"
       else if jsIncludes (jsLower text) "medium" then "medium"
       else if jsIncludes (jsLower text) "large" then "full drawer"
       else "medium") ∧
    (parseDetails text).color =
      (let colorWords := (tokensOf text).filter (fun w => ¬ knownWords.contains (jsLower w))
       if colorWords.isEmpty then "black" else String.intercalate " " colorWords) ∧
    parseDetails "PETG, red, small" = ⟨"PETG", "red", "small"⟩ := by
  refine ⟨?_, rfl, rfl, by decide⟩
  by_cases h1 : jsIncludes (jsLower text) "petg" = true <;>
    by_cases h2 : jsIncludes (jsLower text) "pla+" = true <;>
      by_cases h3 : jsIncludes (jsLower text) "pla" = true <;>
        simp [parseDetails, h1, h2, h3]

/-! ### C1 / C9 — quote confirmation fork -/

/-- The confirm-keyword test of `handleQuoteSent` (applied to the uppercased
text). -/
def confirmsQuote (upper : String) : Bool :=
  jsIncludes upper "YES" || jsIncludes upper "CONFIRM" || jsIncludes upper "APPROVE"

/-- The cancel-keyword test of `handleQuoteSent` (applied to the uppercased
text). -/
def cancelsQuote (upper : String) : Bool :=
  jsIncludes upper "NO" || jsIncludes upper "CANCEL"

/-- A concrete database at stage `QUOTE_SENT` with one pending order. -/
def qsDb : ConvDb :=
  { state := ⟨"QUOTE_SENT", "FFC-11111"⟩,
    orders := [{ mkOrder "FFC-11111" "psid1" "uploads/p.jpg" with
                 material := "PLA", color := "red", size := "small" }],
    messages := [], sent := [] }

/-- C1 counterexample: the text "NO YES" contains the cancel keyword "NO",
yet `handleQuoteSent` confirms the order (status `confirmed`, stage
`CONFIRMED`, pending reference kept) — the cancel clause of the claim, read as an
independent implication, fails on such texts because the confirm branch is
tested first. -/
theorem handleQuoteSent_cancel_clause_fails :
    jsIncludes (jsUpper "NO YES") "NO" = true ∧
    (handleQuoteSent "psid1" "NO YES" qsDb).1.state.stage = "CONFIRMED" ∧
    (handleQuoteSent "psid1" "NO YES" qsDb).1.state.pending_order_id = "FFC-11111" ∧
    (getOrder "FFC-11111" (handleQuoteSent "psid1" "NO YES" qsDb).1.orders).map (·.status) =
      some "confirmed" := by decide

/-- C1 (amended): at stage `QUOTE_SENT`, a text whose uppercase contains
YES/CONFIRM/APPROVE confirms the pending order and moves to `CONFIRMED`; a
text containing NO/CANCEL **and none of the confirm keywords** cancels the
order, clears the pending reference and resets to `NEW`; any other text sends
the yes-or-no re-prompt and leaves the orders, the stage and the message log
unchanged. -/
theorem handleQuoteSent_fork (psid text : String) (db : ConvDb) :
    (confirmsQuote (jsUpper text) = true →
      (handleQuoteSent psid text db).1.state = ⟨"CONFIRMED", db.state.pending_order_id⟩ ∧
      getOrder db.state.pending_order_id (handleQuoteSent psid text db).1.orders =
        (getOrder db.state.pending_order_id db.orders).map
          (fun o => { o with status := "confirmed" })) ∧
    (confirmsQuote (jsUpper text) = false → cancelsQuote (jsUpper text) = true →
      (handleQuoteSent psid text db).1.state = ⟨"NEW", ""⟩ ∧
      getOrder db.state.pending_order_id (handleQuoteSent psid text db).1.orders =
        (getOrder db.state.pending_order_id db.orders).map
          (fun o => { o with status := "cancelled" })) ∧
    (confirmsQuote (jsUpper text) = false → cancelsQuote (jsUpper text) = false →
      (handleQuoteSent psid text db).1.orders = db.orders ∧
      (handleQuoteSent psid text db).1.state = db.state ∧
      (handleQuoteSent psid text db).1.sent = db.sent ++ [quoteReprompt] ∧
      (handleQuoteSent psid text db).1.messages = db.messages) := by
  refine ⟨fun hc => ?_, fun hc hx => ?_, fun hc hx => ?_⟩
  · simp only [confirmsQuote, Bool.or_eq_true] at hc
    have hc' : (jsIncludes (jsUpper text) "YES" || jsIncludes (jsUpper text) "CONFIRM" ||
        jsIncludes (jsUpper text) "APPROVE") = true := by
      simpa [Bool.or_eq_true] using hc
    simp only [handleQuoteSent, hc', if_true]
    refine ⟨rfl, ?_⟩
    simpa using getOrder_update_self db.state.pending_order_id
      (fun o => { o with status := "confirmed" }) (fun _ => rfl) db.orders
  · have hc' : (jsIncludes (jsUpper text) "YES" || jsIncludes (jsUpper text) "CONFIRM" ||
        jsIncludes (jsUpper text) "APPROVE") = false := by
      simpa [confirmsQuote] using hc
    have hx' : (jsIncludes (jsUpper text) "NO" || jsIncludes (jsUpper text) "CANCEL") = true := by
      simpa [cancelsQuote] using hx
    simp only [handleQuoteSent, hc', hx', Bool.false_eq_true, if_false, if_true]
    refine ⟨rfl, ?_⟩
    simpa using getOrder_update_self db.state.pending_order_id
      (fun o => { o with status := "cancelled" }) (fun _ => rfl) db.orders
  · have hc' : (jsIncludes (jsUpper text) "YES" || jsIncludes (jsUpper text) "CONFIRM" ||
        jsIncludes (jsUpper text) "APPROVE") = false := by
      simpa [confirmsQuote] using hc
    have hx' : (jsIncludes (jsUpper text) "NO" || jsIncludes (jsUpper text) "CANCEL") = false := by
      simpa [cancelsQuote] using hx
    simp [handleQuoteSent, hc', hx']

/-- C1 witness: end-to-end scenario 3 — at `QUOTE_SENT`, the reply
"nah, no thanks" cancels: status `cancelled`, stage `NEW`, pending cleared. -/
theorem handleQuoteSent_fork_witness :
    confirmsQuote (jsUpper "nah, no thanks") = false ∧
    cancelsQuote (jsUpper "nah, no thanks") = true ∧
    ((handleQuoteSent "psid1" "nah, no thanks" qsDb).1.state = ⟨"NEW", ""⟩ ∧
      getOrder "FFC-11111" (handleQuoteSent "psid1" "nah, no thanks" qsDb).1.orders =
        (getOrder "FFC-11111" qsDb.orders).map (fun o => { o with status := "cancelled" })) :=
  ⟨by decide, by decide,
    (handleQuoteSent_fork "psid1" "nah, no thanks" qsDb).2.1 (by decide) (by decide)⟩

/-- C9: when the uppercased text contains both a confirm keyword and a cancel
keyword, the confirm branch wins: the status of the pending order becomes
`confirmed` (never `cancelled`) and the stage becomes `CONFIRMED`. -/
theorem handleQuoteSent_confirm_priority (psid text : String) (db : ConvDb)
    (hc : confirmsQuote (jsUpper text) = true)
    (_hx : cancelsQuote (jsUpper text) = true) :
    (handleQuoteSent psid text db).1.state.stage = "CONFIRMED" ∧
    getOrder db.state.pending_order_id (handleQuoteSent psid text db).1.orders =
      (getOrder db.state.pending_order_id db.orders).map
        (fun o => { o with status := "confirmed" }) ∧
    ∀ o, getOrder db.state.pending_order_id (handleQuoteSent psid text db).1.orders = some o →
      o.status ≠ "cancelled" := by
  obtain ⟨hs, ho⟩ := (handleQuoteSent_fork psid text db).1 hc
  refine ⟨by rw [hs], ho, ?_⟩
  intro o hoo
  rw [ho] at hoo
  cases hg : getOrder db.state.pending_order_id db.orders with
  | none => rw [hg] at hoo; exact absurd hoo (by simp)
  | some o0 =>
    rw [hg] at hoo
    simp only [Option.map_some', Option.some.injEq] at hoo
    rw [← hoo]
    simp

/-- C9 witness: "NO, wait — YES please" contains both keyword families and is
confirmed. -/
theorem handleQuoteSent_confirm_priority_witness :
    confirmsQuote (jsUpper "NO, wait — YES please") = true ∧
    cancelsQuote (jsUpper "NO, wait — YES please") = true ∧
    ((handleQuoteSent "psid1" "NO, wait — YES please" qsDb).1.state.stage = "CONFIRMED" ∧
      getOrder "FFC-11111" (handleQuoteSent "psid1" "NO, wait — YES please" qsDb).1.orders =
        (getOrder "FFC-11111" qsDb.orders).map (fun o => { o with status := "confirmed" }) ∧
      ∀ o, getOrder "FFC-11111"
          (handleQuoteSent "psid1" "NO, wait — YES please" qsDb).1.orders = some o →
        o.status ≠ "cancelled") :=
  ⟨by decide, by decide,
    handleQuoteSent_confirm_priority "psid1" "NO, wait — YES please" qsDb
      (by decide) (by decide)⟩

/-! ### C10 — frame property of `db.updateOrder` -/

/-- The filtered `SET` list never rewrites a column outside the allow-list. -/
theorem applyFields_not_listed {α : Type} (updates : List (String × α))
    (row : String → α) (c : String) (h : ∀ kv ∈ updates, kv.1 ≠ c) :
    applyFields updates row c = row c := by
  unfold applyFields
  cases e : updates.reverse.find? (fun kv => kv.1 == c) with
  | none => rfl
  | some kv =>
    have hm : kv ∈ updates := List.mem_reverse.mp (List.mem_of_find?_eq_some e)
    have hp := List.find?_some e
    exact absurd (by simpa using hp) (h kv hm)

/-- C10: `updateOrder` touches only the addressed row; on that row only
allow-listed columns plus `updated_at` can change while `order_id`, `psid`
and `created_at` stay fixed; keys outside the allow-list are ignored, a call
with no allowed key is a complete no-op, and a call addressing an absent
`order_id` changes nothing (and, being a total function, raises no error). -/
theorem updateOrder_frame {α : Type} [DecidableEq α] (orderId : α)
    (fields : List (String × α)) (now : α) (db : List (String → α)) :
    List.Forall₂ (fun r r' =>
      (r "order_id" ≠ orderId → r' = r) ∧
      (∀ c, c ∉ allowedCols → c ≠ "updated_at" → r' c = r c) ∧
      r' "order_id" = r "order_id" ∧ r' "psid" = r "psid" ∧
      r' "created_at" = r "created_at")
      db (updateOrder orderId fields now db) ∧
    ((∀ kv ∈ fields, kv.1 ∉ allowedCols) → updateOrder orderId fields now db = db) ∧
    ((∀ r ∈ db, r "order_id" ≠ orderId) → updateOrder orderId fields now db = db) := by
  have hupd : ∀ kv ∈ fields.filter (fun kv => allowedCols.contains kv.1),
      kv.1 ∈ allowedCols := by
    intro kv hkv
    have := List.of_mem_filter hkv
    simpa using this
  have hrow : ∀ row : String → α,
      (fun r r' =>
        (r "order_id" ≠ orderId → r' = r) ∧
        (∀ c, c ∉ allowedCols → c ≠ "updated_at" → r' c = r c) ∧
        r' "order_id" = r "order_id" ∧ r' "psid" = r "psid" ∧
        r' "created_at" = r "created_at") row
      (if row "order_id" = orderId then
        fun c => if c = "updated_at" then now
          else applyFields (fields.filter (fun kv => allowedCols.contains kv.1)) row c
      else row) := by
    intro row
    by_cases hr : row "order_id" = orderId
    · rw [if_pos hr]
      have frame : ∀ c, c ∉ allowedCols → c ≠ "updated_at" →
          (if c = "updated_at" then now
            else applyFields (fields.filter (fun kv => allowedCols.contains kv.1)) row c)
          = row c := by
        intro c hca hcu
        rw [if_neg hcu]
        exact applyFields_not_listed _ row c
          (fun kv hkv hx => hca (hx ▸ hupd kv hkv))
      exact ⟨fun h => absurd hr h,
        frame,
        frame "order_id" (by decide) (by decide),
        frame "psid" (by decide) (by decide),
        frame "created_at" (by decide) (by decide)⟩
    · rw [if_neg hr]
      exact ⟨fun _ => rfl, fun _ _ _ => rfl, rfl, rfl, rfl⟩
  refine ⟨?_, ?_, ?_⟩
  · unfold updateOrder
    by_cases he : (fields.filter (fun kv => allowedCols.contains kv.1)).isEmpty
    · rw [if_pos he]
      exact (List.forall₂_same).mpr (fun r _ => ⟨fun _ => rfl, fun _ _ _ => rfl, rfl, rfl, rfl⟩)
    · rw [if_neg he]
      rw [List.forall₂_map_right_iff]
      exact (List.forall₂_same).mpr (fun r _ => hrow r)
  · intro h
    unfold updateOrder
    have he : (fields.filter (fun kv => allowedCols.contains kv.1)) = [] := by
      refine List.filter_eq_nil_iff.mpr ?_
      intro kv hkv
      simpa using h kv hkv
    rw [he]
    rfl
  · intro h
    unfold updateOrder
    by_cases he : (fields.filter (fun kv => allowedCols.contains kv.1)).isEmpty
    · rw [if_pos he]
    · rw [if_neg he]
      exact map_eq_self_of db _ (fun r hr => if_neg (h r hr))

/-- A concrete two-row orders table for the C10 witness. -/
def sampleRow1 : String → String :=
  fun c => if c = "order_id" then "FFC-10001" else if c = "psid" then "user-a"
    else if c = "status" then "new" else ""

/-- Second concrete row for the C10 witness. -/
def sampleRow2 : String → String :=
  fun c => if c = "order_id" then "FFC-10002" else if c = "psid" then "user-b"
    else if c = "status" then "confirmed" else ""

/-- C10 witness: a call carrying only a non-allow-listed key is a no-op, and
a call addressing an absent order id is a no-op. -/
theorem updateOrder_frame_witness :
    updateOrder "FFC-10001" [("hacker_column", "x")] "ts" [sampleRow1, sampleRow2]
      = [sampleRow1, sampleRow2] ∧
    updateOrder "FFC-40404" [("status", "error")] "ts" [sampleRow1, sampleRow2]
      = [sampleRow1, sampleRow2] :=
  ⟨(updateOrder_frame "FFC-10001" [("hacker_column", "x")] "ts" [sampleRow1, sampleRow2]).2.1
      (by decide),
   (updateOrder_frame "FFC-40404" [("status", "error")] "ts" [sampleRow1, sampleRow2]).2.2
      (by intro r hr
          rcases List.mem_pair.mp hr with h | h <;> subst h <;> decide)⟩

/-! ### C8 — cheapest-quote selection in `uploadAndQuote` -/

/-- Membership in an insertion step. -/
theorem mem_insertByTotal {a q : CombinedQuote} {l : List CombinedQuote} :
    a ∈ insertByTotal q l ↔ a = q ∨ a ∈ l := by
  induction l with
  | nil => simp [insertByTotal]
  | cons r rs ih =>
    by_cases h : q.totalPrice ≤ r.totalPrice
    · simp [insertByTotal, h]
    · simp [insertByTotal, h, ih]
      tauto

/-- Insertion sort preserves length. -/
theorem length_insertByTotal (q : CombinedQuote) (l : List CombinedQuote) :
    (insertByTotal q l).length = l.length + 1 := by
  induction l with
  | nil => rfl
  | cons r rs ih =>
    by_cases h : q.totalPrice ≤ r.totalPrice
    · simp [insertByTotal, h]
    · simp [insertByTotal, h, ih]

/-- `sortByTotal` preserves length. -/
theorem length_sortByTotal (l : List CombinedQuote) :
    (sortByTotal l).length = l.length := by
  induction l with
  | nil => rfl
  | cons q qs ih => simp [sortByTotal, length_insertByTotal, ih]

/-- `sortByTotal` preserves membership. -/
theorem mem_sortByTotal {a : CombinedQuote} {l : List CombinedQuote} :
    a ∈ sortByTotal l ↔ a ∈ l := by
  induction l with
  | nil => simp [sortByTotal]
  | cons q qs ih => simp [sortByTotal, mem_insertByTotal, ih]

/-- The head of the insertion sort is a minimum of the input. -/
theorem sortByTotal_head_min (l : List CombinedQuote) (q : CombinedQuote)
    (h : (sortByTotal l).head? = some q) :
    q ∈ l ∧ ∀ r ∈ l, q.totalPrice ≤ r.totalPrice := by
  induction l generalizing q with
  | nil => exact absurd h (by simp [sortByTotal])
  | cons a l ih =>
    rw [sortByTotal] at h
    cases e : sortByTotal l with
    | nil =>
      have hl : l = [] := List.length_eq_zero.mp (by rw [← length_sortByTotal, e]; rfl)
      subst hl
      rw [e] at h
      simp [insertByTotal] at h
      subst h
      exact ⟨List.mem_cons_self _ _, by simp⟩
    | cons b bs =>
      obtain ⟨hbmem, hbmin⟩ := ih b (by rw [e]; rfl)
      rw [e] at h
      by_cases hab : a.totalPrice ≤ b.totalPrice
      · rw [insertByTotal, if_pos hab] at h
        simp only [List.head?_cons, Option.some.injEq] at h
        subst h
        refine ⟨List.mem_cons_self _ _, ?_⟩
        intro r hr
        rcases List.mem_cons.mp hr with h | h
        · subst h; exact le_refl _
        · exact le_trans hab (hbmin r h)
      · rw [insertByTotal, if_neg hab] at h
        simp only [List.head?_cons, Option.some.injEq] at h
        subst h
        refine ⟨List.mem_cons_of_mem a hbmem, ?_⟩
        intro r hr
        rcases List.mem_cons.mp hr with h | h
        · subst h; exact le_of_not_le hab
        · exact hbmin r h

/-- C8: for a non-empty quotes array, the `bestQuote` of `uploadAndQuote` is a
combined quote whose `totalPrice` — the model price plus the vendor's
matching shipping price (0 when none matches) — is minimal among all combined
quotes, and the selected total price does not depend on the order in which
the quotes arrived. -/
theorem uploadAndQuote_selects_cheapest (quotes : List RawQuote)
    (shippings : List RawShipping) (h : quotes ≠ []) :
    (∃ b, (uploadAndQuote quotes shippings).bestQuote = some b ∧
      b ∈ combineQuotes quotes shippings ∧
      ∀ q ∈ combineQuotes quotes shippings, b.totalPrice ≤ q.totalPrice) ∧
    (∀ quotes', quotes.Perm quotes' →
      ((uploadAndQuote quotes shippings).bestQuote).map (·.totalPrice) =
        ((uploadAndQuote quotes' shippings).bestQuote).map (·.totalPrice)) := by
  have hbest : ∀ (qs : List RawQuote), qs ≠ [] →
      ∃ b, (uploadAndQuote qs shippings).bestQuote = some b ∧
        b ∈ combineQuotes qs shippings ∧
        ∀ q ∈ combineQuotes qs shippings, b.totalPrice ≤ q.totalPrice := by
    intro qs hqs
    have hlen : (sortByTotal (combineQuotes qs shippings)).length ≠ 0 := by
      rw [length_sortByTotal]
      simpa [combineQuotes] using hqs
    cases e : (sortByTotal (combineQuotes qs shippings)).head? with
    | none =>
      exact absurd (List.length_eq_zero.mpr (List.head?_eq_none_iff.mp e)) hlen
    | some b =>
      obtain ⟨hmem, hmin⟩ := sortByTotal_head_min _ b e
      exact ⟨b, e, hmem, hmin⟩
  refine ⟨hbest quotes h, ?_⟩
  intro quotes' hperm
  have h' : quotes' ≠ [] := by
    intro hq
    exact h (List.Perm.eq_nil (hq ▸ hperm))
  obtain ⟨b, hb, hbmem, hbmin⟩ := hbest quotes h
  obtain ⟨b', hb', hbmem', hbmin'⟩ := hbest quotes' h'
  have hcperm : (combineQuotes quotes shippings).Perm (combineQuotes quotes' shippings) :=
    List.Perm.map _ hperm
  have h1 : b.totalPrice ≤ b'.totalPrice := hbmin b' (hcperm.symm.subset hbmem')
  have h2 : b'.totalPrice ≤ b.totalPrice := hbmin' b (hcperm.subset hbmem)
  rw [hb, hb']
  simp [le_antisymm h1 h2]

/-- Concrete raw quote with total 40 for the C8 witness. -/
def rq40 : RawQuote := ⟨"q40", "v1", 40, some 5, none⟩

/-- Concrete raw quote with total 25 for the C8 witness. -/
def rq25 : RawQuote := ⟨"q25", "v2", 25, some 7, none⟩

/-- Concrete raw quote with total 60 for the C8 witness. -/
def rq60 : RawQuote := ⟨"q60", "v3", 60, some 3, none⟩

/-- C8 witness: among total prices 40, 25, 60 the 25 entry is selected, in
either arrival order. -/
theorem uploadAndQuote_selects_cheapest_witness :
    ((uploadAndQuote [rq40, rq25, rq60] []).bestQuote).map (·.totalPrice) = some 25 ∧
    ((uploadAndQuote [rq60, rq25, rq40] []).bestQuote).map (·.totalPrice) = some 25 ∧
    (∃ b, (uploadAndQuote [rq40, rq25, rq60] []).bestQuote = some b ∧
      b ∈ combineQuotes [rq40, rq25, rq60] [] ∧
      ∀ q ∈ combineQuotes [rq40, rq25, rq60] [], b.totalPrice ≤ q.totalPrice) :=
  ⟨by norm_num [uploadAndQuote, combineQuotes, sortByTotal, insertByTotal, rq40, rq25, rq60],
   by norm_num [uploadAndQuote, combineQuotes, sortByTotal, insertByTotal, rq40, rq25, rq60],
   (uploadAndQuote_selects_cheapest [rq40, rq25, rq60] [] (by decide)).1⟩

/-! ### Pipeline lemmas -/

/-- Looking up the addressed id after an `order_id`-preserving update. -/
theorem lookup_update (orderId : String) (f : Order → Order)
    (hf : ∀ o, (f o).order_id = o.order_id) {db : List Order} {o : Order}
    (ho : getOrder orderId db = some o) :
    getOrder orderId (updateOrderRows orderId f db) = some (f o) := by
  rw [getOrder_update_self orderId f hf db, ho]
  rfl

/-- The structured result of the catch block, unchanged by what the database
held. -/
theorem failWith_res (env : PipeEnv) (orderId msg : String) (db : List Order) (tc : Nat) :
    (failWith env orderId msg db tc).res =
      { success := false, orderId := orderId, stlPath := none,
        craftcloudQuote := none, error := some msg } := rfl

/-- After the catch block, the addressed order is still present with its
`stl_path` intact, and carries status `error` whenever the best-effort status
write did not itself fail. -/
theorem failWith_lookup (env : PipeEnv) (orderId msg : String) (db : List Order)
    (tc : Nat) (o : Order) (ho : getOrder orderId db = some o) :
    ∃ o', getOrder orderId (failWith env orderId msg db tc).db = some o' ∧
      o'.stl_path = o.stl_path ∧
      (env.statusWriteFails = false → o'.status = "error") := by
  by_cases hb : env.statusWriteFails
  · refine ⟨o, ?_, rfl, fun h => absurd hb (by simp [h])⟩
    simp [failWith, hb, ho]
  · refine ⟨{ o with status := "error" }, ?_, rfl, fun _ => rfl⟩
    have hb' : env.statusWriteFails = false := by simpa using hb
    simp only [failWith, hb', Bool.false_eq_true, if_false]
    exact lookup_update orderId (fun o => { o with status := "error" }) (fun _ => rfl) ho

/-- Both fulfillment handlers keep the addressed order in the table with its
`stl_path` unchanged, and make no `tooltrace` invocation of their own. -/
theorem routeFulfillment_lookup (env : PipeEnv) (orderId : String) (order : Order)
    (stlPath : String) (db : List Order) (tc : Nat) (o : Order)
    (ho : getOrder orderId db = some o) :
    (routeFulfillment env orderId order stlPath db tc).traceCalls = tc ∧
    ∃ o', getOrder orderId (routeFulfillment env orderId order stlPath db tc).db = some o' ∧
      o'.stl_path = o.stl_path := by
  unfold routeFulfillment
  by_cases hf : jsUpper order.fulfillment_type = "CLOUD"
  · rw [if_pos hf]
    unfold handleCloudFulfillment
    cases env.quoteOutcome with
    | error e =>
      obtain ⟨o', h1, h2, _⟩ := failWith_lookup env orderId e db tc o ho
      exact ⟨rfl, o', h1, h2⟩
    | ok ob =>
      cases ob with
      | none =>
        obtain ⟨o', h1, h2, _⟩ :=
          failWith_lookup env orderId "No Craftcloud quotes returned" db tc o ho
        exact ⟨rfl, o', h1, h2⟩
      | some best =>
        refine ⟨rfl, ?_⟩
        have h1 := lookup_update orderId
          (fun o => { o with craftcloud_cost := best.totalPrice,
                             craftcloud_quote_id := best.quoteId }) (fun _ => rfl) ho
        by_cases ha : env.apiKeySet
        · cases hp : env.placeOutcome with
          | ok v =>
            have h2 := lookup_update orderId (fun o => { o with status := "in-progress" })
              (fun _ => rfl) h1
            simp only [ha, if_true, hp]
            exact ⟨_, h2, rfl⟩
          | error e =>
            simp only [ha, if_true, hp]
            exact ⟨_, h1, rfl⟩
        · have ha' : env.apiKeySet = false := by simpa using ha
          simp only [ha', Bool.false_eq_true, if_false]
          exact ⟨_, h1, rfl⟩
  · rw [if_neg hf]
    unfold handleSelfFulfillment
    exact ⟨rfl, _, lookup_update orderId (fun o => { o with status := "in-progress" })
      (fun _ => rfl) ho, rfl⟩

/-- A pipeline run on an order that already has a model file makes no
`tooltrace.processImage` call and keeps the stored `stl_path`. -/
theorem runOrderPipeline_skips_generation (env : PipeEnv) (orderId : String)
    (db : List Order) (o : Order) (ho : getOrder orderId db = some o)
    (hstl : o.stl_path ≠ "") :
    (runOrderPipeline env orderId db).traceCalls = 0 ∧
    ∃ o', getOrder orderId (runOrderPipeline env orderId db).db = some o' ∧
      o'.stl_path = o.stl_path := by
  unfold runOrderPipeline
  rw [ho]
  simp only [if_neg hstl]
  exact routeFulfillment_lookup env orderId o o.stl_path db 0 o ho

/-! ### C2 — pipeline idempotence on the model-file step -/

/-- C2: for every order whose stored model-file reference is non-empty,
running the pipeline never invokes `tooltrace.processImage` — in particular
two consecutive runs make zero invocations (hence at most one) — and the
persisted `stl_path` is unchanged by both runs, so in particular by the
second. -/
theorem pipeline_idempotent_generation (env1 env2 : PipeEnv) (orderId : String)
    (db : List Order) (o : Order) (ho : getOrder orderId db = some o)
    (hstl : o.stl_path ≠ "") :
    (runOrderPipeline env1 orderId db).traceCalls = 0 ∧
    (runOrderPipeline env2 orderId (runOrderPipeline env1 orderId db).db).traceCalls = 0 ∧
    (runOrderPipeline env1 orderId db).traceCalls +
      (runOrderPipeline env2 orderId (runOrderPipeline env1 orderId db).db).traceCalls ≤ 1 ∧
    ∃ o1 o2, getOrder orderId (runOrderPipeline env1 orderId db).db = some o1 ∧
      o1.stl_path = o.stl_path ∧
      getOrder orderId
        (runOrderPipeline env2 orderId (runOrderPipeline env1 orderId db).db).db = some o2 ∧
      o2.stl_path = o1.stl_path := by
  obtain ⟨ht1, o1, ho1, hs1⟩ := runOrderPipeline_skips_generation env1 orderId db o ho hstl
  have hstl1 : o1.stl_path ≠ "" := by rw [hs1]; exact hstl
  obtain ⟨ht2, o2, ho2, hs2⟩ :=
    runOrderPipeline_skips_generation env2 orderId _ o1 ho1 hstl1
  exact ⟨ht1, ht2, by omega, o1, o2, ho1, hs1, ho2, hs2⟩

/-- A concrete order that already has a model file, for the C2 witness. -/
def stlOrder : Order :=
  { mkOrder "FFC-22222" "psid2" "uploads/t.jpg" with
    status := "confirmed", material := "PETG", size := "small",
    fulfillment_type := "SELF", stl_path := "uploads/17123.stl" }

/-- A concrete pipeline environment for witnesses. -/
def envA : PipeEnv :=
  { trace := { success := true, stlPath := "uploads/999.stl", error := "" },
    quoteOutcome := .ok (some ⟨"cq-1", "v1", 25, some 7, 0, some "ship-1", 25⟩),
    apiKeySet := true, placeOutcome := .ok "cc-order-1", statusWriteFails := false }

/-- C2 witness: two runs over a stored order with `stl_path`
"uploads/17123.stl" make zero generation calls and keep the reference. -/
theorem pipeline_idempotent_generation_witness :
    (runOrderPipeline envA "FFC-22222" [stlOrder]).traceCalls = 0 ∧
    (runOrderPipeline envA "FFC-22222"
      (runOrderPipeline envA "FFC-22222" [stlOrder]).db).traceCalls = 0 ∧
    (runOrderPipeline envA "FFC-22222" [stlOrder]).traceCalls +
      (runOrderPipeline envA "FFC-22222"
        (runOrderPipeline envA "FFC-22222" [stlOrder]).db).traceCalls ≤ 1 ∧
    ∃ o1 o2, getOrder "FFC-22222" (runOrderPipeline envA "FFC-22222" [stlOrder]).db = some o1 ∧
      o1.stl_path = stlOrder.stl_path ∧
      getOrder "FFC-22222"
        (runOrderPipeline envA "FFC-22222"
          (runOrderPipeline envA "FFC-22222" [stlOrder]).db).db = some o2 ∧
      o2.stl_path = o1.stl_path :=
  pipeline_idempotent_generation envA envA "FFC-22222" [stlOrder] stlOrder rfl (by decide)

/-! ### Shape analysis of the pipeline result -/

/-- Both fulfillment handlers return either a success result with no error or
the structured failure shape. -/
theorem routeFulfillment_res_shape (env : PipeEnv) (orderId : String) (order : Order)
    (stlPath : String) (db : List Order) (tc : Nat) :
    ((routeFulfillment env orderId order stlPath db tc).res.success = true ∧
      (routeFulfillment env orderId order stlPath db tc).res.error = none) ∨
    ((routeFulfillment env orderId order stlPath db tc).res.success = false ∧
      (routeFulfillment env orderId order stlPath db tc).res.stlPath = none ∧
      (routeFulfillment env orderId order stlPath db tc).res.craftcloudQuote = none ∧
      ∃ m, (routeFulfillment env orderId order stlPath db tc).res.error = some m) := by
  unfold routeFulfillment handleCloudFulfillment handleSelfFulfillment
  by_cases hf : jsUpper order.fulfillment_type = "CLOUD"
  · rw [if_pos hf]
    cases env.quoteOutcome with
    | error e => right; exact ⟨rfl, rfl, rfl, e, rfl⟩
    | ok ob =>
      cases ob with
      | none => right; exact ⟨rfl, rfl, rfl, _, rfl⟩
      | some best => left; exact ⟨rfl, rfl⟩
  · rw [if_neg hf]
    left; exact ⟨rfl, rfl⟩

/-- The pipeline returns either a success result with no error or the
structured failure shape: null model-file and quote fields plus an error
message. -/
theorem runOrderPipeline_res_shape (env : PipeEnv) (orderId : String) (db : List Order) :
    ((runOrderPipeline env orderId db).res.success = true ∧
      (runOrderPipeline env orderId db).res.error = none) ∨
    ((runOrderPipeline env orderId db).res.success = false ∧
      (runOrderPipeline env orderId db).res.stlPath = none ∧
      (runOrderPipeline env orderId db).res.craftcloudQuote = none ∧
      ∃ m, (runOrderPipeline env orderId db).res.error = some m) := by
  unfold runOrderPipeline
  cases hg : getOrder orderId db with
  | none => right; exact ⟨rfl, rfl, rfl, _, rfl⟩
  | some o =>
    dsimp only
    by_cases h1 : o.stl_path = ""
    · rw [if_pos h1]
      by_cases h2 : o.photo_path = ""
      · rw [if_pos h2]
        right; exact ⟨rfl, rfl, rfl, _, rfl⟩
      · rw [if_neg h2]
        by_cases h3 : env.trace.success = true
        · rw [if_pos h3]
          exact routeFulfillment_res_shape env orderId o env.trace.stlPath _ 1
        · rw [if_neg h3]
          right; exact ⟨rfl, rfl, rfl, _, rfl⟩
    · rw [if_neg h1]
      exact routeFulfillment_res_shape env orderId o o.stl_path db 0

/-- The returned result record of the fulfillment handlers does not depend on
the database contents, the status-write outcome, the ordering credential, or
the placement outcome — only on the quoting outcome. -/
theorem routeFulfillment_res_indep (env env' : PipeEnv) (orderId : String)
    (order : Order) (stlPath : String) (db db' : List Order) (tc : Nat)
    (hq : env.quoteOutcome = env'.quoteOutcome) :
    (routeFulfillment env orderId order stlPath db tc).res =
      (routeFulfillment env' orderId order stlPath db' tc).res := by
  unfold routeFulfillment handleCloudFulfillment handleSelfFulfillment
  by_cases hf : jsUpper order.fulfillment_type = "CLOUD"
  · rw [if_pos hf, if_pos hf, ← hq]
    cases env.quoteOutcome with
    | error e => rfl
    | ok ob => cases ob with
      | none => rfl
      | some best => rfl
  · rw [if_neg hf, if_neg hf]

/-- The pipeline's returned result record depends only on the generation and
quoting outcomes of the environment — not on the status-write or placement
outcomes. -/
theorem runOrderPipeline_res_indep (env env' : PipeEnv) (orderId : String)
    (db : List Order) (ht : env.trace = env'.trace)
    (hq : env.quoteOutcome = env'.quoteOutcome) :
    (runOrderPipeline env orderId db).res = (runOrderPipeline env' orderId db).res := by
  unfold runOrderPipeline
  cases hg : getOrder orderId db with
  | none => rfl
  | some o =>
    dsimp only
    rw [← ht]
    by_cases h1 : o.stl_path = ""
    · rw [if_pos h1, if_pos h1]
      by_cases h2 : o.photo_path = ""
      · rw [if_pos h2, if_pos h2]; rfl
      · rw [if_neg h2, if_neg h2]
        by_cases h3 : env.trace.success = true
        · rw [if_pos h3, if_pos h3]
          exact routeFulfillment_res_indep env env' orderId o _ _ _ _ hq
        · rw [if_neg h3, if_neg h3]; rfl
    · rw [if_neg h1, if_neg h1]
      exact routeFulfillment_res_indep env env' orderId o _ _ _ _ hq

/-- On a fulfillment-handler failure, the addressed order ends with status
`error` whenever the best-effort status write does not itself fail. -/
theorem routeFulfillment_error_status (env : PipeEnv) (orderId : String) (order : Order)
    (stlPath : String) (db : List Order) (tc : Nat) (o : Order)
    (ho : getOrder orderId db = some o) (hb : env.statusWriteFails = false)
    (hfail : (routeFulfillment env orderId order stlPath db tc).res.success = false) :
    ∃ o', getOrder orderId (routeFulfillment env orderId order stlPath db tc).db = some o' ∧
      o'.status = "error" := by
  unfold routeFulfillment handleCloudFulfillment handleSelfFulfillment at hfail ⊢
  by_cases hf : jsUpper order.fulfillment_type = "CLOUD"
  · rw [if_pos hf] at hfail ⊢
    cases hq : env.quoteOutcome with
    | error e =>
      obtain ⟨o', ha, _, hs⟩ := failWith_lookup env orderId e db tc o ho
      exact ⟨o', ha, hs hb⟩
    | ok ob =>
      cases ob with
      | none =>
        obtain ⟨o', ha, _, hs⟩ :=
          failWith_lookup env orderId "No Craftcloud quotes returned" db tc o ho
        exact ⟨o', ha, hs hb⟩
      | some best =>
        rw [hq] at hfail
        simp at hfail
  · rw [if_neg hf] at hfail
    exact absurd hfail (by simp)

/-- On a pipeline failure, the addressed order (when present) ends with
status `error` whenever the best-effort status write does not itself fail. -/
theorem runOrderPipeline_error_status (env : PipeEnv) (orderId : String)
    (db : List Order) (hb : env.statusWriteFails = false)
    (hfail : (runOrderPipeline env orderId db).res.success = false)
    (o : Order) (ho : getOrder orderId db = some o) :
    ∃ o', getOrder orderId (runOrderPipeline env orderId db).db = some o' ∧
      o'.status = "error" := by
  unfold runOrderPipeline at hfail ⊢
  rw [ho] at hfail ⊢
  dsimp only at hfail ⊢
  by_cases h1 : o.stl_path = ""
  · rw [if_pos h1] at hfail ⊢
    by_cases h2 : o.photo_path = ""
    · rw [if_pos h2] at hfail ⊢
      obtain ⟨o', ha, _, hs⟩ :=
        failWith_lookup env orderId "Order has no photo — cannot generate STL" db 0 o ho
      exact ⟨o', ha, hs hb⟩
    · rw [if_neg h2] at hfail ⊢
      by_cases h3 : env.trace.success = true
      · rw [if_pos h3] at hfail ⊢
        have h1' := lookup_update orderId (fun o => { o with stl_path := env.trace.stlPath })
          (fun _ => rfl) ho
        exact routeFulfillment_error_status env orderId o _ _ 1 _ h1' hb hfail
      · rw [if_neg h3] at hfail ⊢
        obtain ⟨o', ha, _, hs⟩ :=
          failWith_lookup env orderId ("ToolTrace failed: " ++ env.trace.error) db 1 o ho
        exact ⟨o', ha, hs hb⟩
  · rw [if_neg h1] at hfail ⊢
    exact routeFulfillment_error_status env orderId o o.stl_path db 0 o ho hb hfail

/-! ### C6 — failures become structured results, never thrown faults -/

/-- C6: the pipeline never propagates a fault: whenever the result is a
failure it carries null model-file and quote fields plus an error message;
the returned result is unaffected by whether the best-effort `status: error`
write fails (the failure is swallowed); on failure the addressed order (when
present) is marked `error` whenever that write goes through; and each of the
four step failures — order not found, missing photo, model generation
exhausted, no vendor quote — produces the corresponding failure result. -/
theorem pipeline_structured_failure (env : PipeEnv) (orderId : String) (db : List Order) :
    ((runOrderPipeline env orderId db).res.success = false →
      (runOrderPipeline env orderId db).res.stlPath = none ∧
      (runOrderPipeline env orderId db).res.craftcloudQuote = none ∧
      ∃ m, (runOrderPipeline env orderId db).res.error = some m) ∧
    (∀ b : Bool,
      (runOrderPipeline { env with statusWriteFails := b } orderId db).res =
        (runOrderPipeline env orderId db).res) ∧
    ((runOrderPipeline env orderId db).res.success = false → env.statusWriteFails = false →
      ∀ o, getOrder orderId db = some o →
        ∃ o', getOrder orderId (runOrderPipeline env orderId db).db = some o' ∧
          o'.status = "error") ∧
    (getOrder orderId db = none →
      (runOrderPipeline env orderId db).res.success = false ∧
      (runOrderPipeline env orderId db).res.error =
        some ("Order " ++ orderId ++ " not found")) ∧
    (∀ o, getOrder orderId db = some o → o.stl_path = "" → o.photo_path = "" →
      (runOrderPipeline env orderId db).res.success = false ∧
      (runOrderPipeline env orderId db).res.error =
        some "Order has no photo — cannot generate STL") ∧
    (∀ o, getOrder orderId db = some o → o.stl_path = "" → o.photo_path ≠ "" →
      env.trace.success = false →
      (runOrderPipeline env orderId db).res.success = false ∧
      (runOrderPipeline env orderId db).res.error =
        some ("ToolTrace failed: " ++ env.trace.error)) ∧
    (∀ o, getOrder orderId db = some o → jsUpper o.fulfillment_type = "CLOUD" →
      (o.stl_path ≠ "" ∨ (o.photo_path ≠ "" ∧ env.trace.success = true)) →
      env.quoteOutcome = .ok none →
      (runOrderPipeline env orderId db).res.success = false ∧
      (runOrderPipeline env orderId db).res.error =
        some "No Craftcloud quotes returned") := by
  refine ⟨?_, ?_, ?_, ?_, ?_, ?_, ?_⟩
  · intro hfail
    rcases runOrderPipeline_res_shape env orderId db with ⟨hs, _⟩ | ⟨_, h1, h2, h3⟩
    · rw [hfail] at hs
      exact absurd hs (by simp)
    · exact ⟨h1, h2, h3⟩
  · intro b
    exact runOrderPipeline_res_indep { env with statusWriteFails := b } env orderId db rfl rfl
  · intro hfail hb o ho
    exact runOrderPipeline_error_status env orderId db hb hfail o ho
  · intro hg
    unfold runOrderPipeline
    rw [hg]
    exact ⟨rfl, rfl⟩
  · intro o ho h1 h2
    unfold runOrderPipeline
    rw [ho]
    dsimp only
    rw [if_pos h1, if_pos h2]
    exact ⟨rfl, rfl⟩
  · intro o ho h1 h2 h3
    unfold runOrderPipeline
    rw [ho]
    dsimp only
    rw [if_pos h1, if_neg h2, if_neg (by simp [h3])]
    exact ⟨rfl, rfl⟩
  · intro o ho hf hreach hq
    unfold runOrderPipeline routeFulfillment handleCloudFulfillment
    rw [ho]
    dsimp only
    by_cases h1 : o.stl_path = ""
    · rcases hreach with hstl | ⟨hp, hts⟩
      · exact absurd h1 hstl
      · rw [if_pos h1, if_neg hp, if_pos hts, if_pos hf, hq]
        exact ⟨rfl, rfl⟩
    · rw [if_neg h1, if_pos hf, hq]
      exact ⟨rfl, rfl⟩

/-- C6 witness: a run addressing an absent order id returns the structured
not-found failure with null model-file and quote fields. -/
theorem pipeline_structured_failure_witness :
    (runOrderPipeline envA "FFC-00000" [stlOrder]).res.success = false ∧
    (runOrderPipeline envA "FFC-00000" [stlOrder]).res.error =
      some ("Order " ++ "FFC-00000" ++ " not found") ∧
    (runOrderPipeline envA "FFC-00000" [stlOrder]).res.stlPath = none ∧
    (runOrderPipeline envA "FFC-00000" [stlOrder]).res.craftcloudQuote = none := by
  have T := pipeline_structured_failure envA "FFC-00000" [stlOrder]
  obtain ⟨hs, he⟩ := T.2.2.2.1 rfl
  obtain ⟨h1, h2, _⟩ := T.1 hs
  exact ⟨hs, he, h1, h2⟩

/-! ### C7 — CLOUD quote persisted before placement; placement failure non-fatal -/

/-- On a successful quote, `handleCloudFulfillment` returns the success
result carrying the quote summary, persists the vendor cost and quote
reference, and sets status `in-progress` exactly when the credential is
configured and placement succeeds. -/
theorem handleCloudFulfillment_spec (env : PipeEnv) (orderId : String) (order : Order)
    (stlPath : String) (db : List Order) (tc : Nat) (o : Order) (best : CombinedQuote)
    (ho : getOrder orderId db = some o)
    (hq : env.quoteOutcome = .ok (some best)) :
    (handleCloudFulfillment env orderId order stlPath db tc).res =
      { success := true, orderId := orderId, stlPath := some stlPath,
        craftcloudQuote := some ⟨best.quoteId, best.totalPrice, best.vendorId, best.leadDays⟩,
        error := none } ∧
    ∃ o', getOrder orderId (handleCloudFulfillment env orderId order stlPath db tc).db =
        some o' ∧
      o'.craftcloud_cost = best.totalPrice ∧ o'.craftcloud_quote_id = best.quoteId ∧
      (env.apiKeySet = true → exceptOk env.placeOutcome = true → o'.status = "in-progress") ∧
      (env.apiKeySet = true → exceptOk env.placeOutcome = false → o'.status = o.status) ∧
      (env.apiKeySet = false → o'.status = o.status) := by
  unfold handleCloudFulfillment
  rw [hq]
  have h1 := lookup_update orderId
    (fun o => { o with craftcloud_cost := best.totalPrice,
                       craftcloud_quote_id := best.quoteId }) (fun _ => rfl) ho
  refine ⟨rfl, ?_⟩
  by_cases ha : env.apiKeySet = true
  · cases hp : env.placeOutcome with
    | ok v =>
      have h2 := lookup_update orderId (fun o => { o with status := "in-progress" })
        (fun _ => rfl) h1
      dsimp only
      rw [if_pos ha]
      exact ⟨_, h2, rfl, rfl, fun _ _ => rfl,
        fun _ hpn => absurd hpn (by simp [exceptOk]),
        fun han => absurd (ha.symm.trans han) (by decide)⟩
    | error e =>
      dsimp only
      rw [if_pos ha]
      exact ⟨_, h1, rfl, rfl,
        fun _ hpt => absurd hpt (by simp [exceptOk]),
        fun _ _ => rfl,
        fun han => absurd (ha.symm.trans han) (by decide)⟩
  · have ha' : env.apiKeySet = false := by simpa using ha
    dsimp only
    rw [if_neg ha]
    exact ⟨_, h1, rfl, rfl,
      fun hat _ => absurd (hat.symm.trans ha') (by decide),
      fun hat _ => absurd (hat.symm.trans ha') (by decide),
      fun _ => rfl⟩

/-- C7: for every CLOUD run that obtains a vendor quote, the run returns
success with the quote summary (id, total price, vendor, lead time)
regardless of the placement outcome; the vendor cost and quote reference are
persisted on the order and remain persisted even when placement fails or is
skipped; status becomes `in-progress` exactly on placement success and is
otherwise unchanged. -/
theorem cloud_quote_persisted (env : PipeEnv) (orderId : String) (db : List Order)
    (o : Order) (best : CombinedQuote)
    (ho : getOrder orderId db = some o)
    (hf : jsUpper o.fulfillment_type = "CLOUD")
    (hq : env.quoteOutcome = .ok (some best))
    (hreach : o.stl_path ≠ "" ∨ (o.photo_path ≠ "" ∧ env.trace.success = true)) :
    (runOrderPipeline env orderId db).res.success = true ∧
    (runOrderPipeline env orderId db).res.craftcloudQuote =
      some { quoteId := best.quoteId, totalPrice := best.totalPrice,
             vendorId := best.vendorId, leadDays := best.leadDays } ∧
    (runOrderPipeline env orderId db).res.error = none ∧
    (∃ o', getOrder orderId (runOrderPipeline env orderId db).db = some o' ∧
      o'.craftcloud_cost = best.totalPrice ∧ o'.craftcloud_quote_id = best.quoteId ∧
      (env.apiKeySet = true → exceptOk env.placeOutcome = true → o'.status = "in-progress") ∧
      (env.apiKeySet = true → exceptOk env.placeOutcome = false → o'.status = o.status) ∧
      (env.apiKeySet = false → o'.status = o.status)) ∧
    (∀ po, (runOrderPipeline { env with placeOutcome := po } orderId db).res =
      (runOrderPipeline env orderId db).res) := by
  by_cases h1 : o.stl_path = ""
  · rcases hreach with hstl | ⟨hp, hts⟩
    · exact absurd h1 hstl
    · have key : runOrderPipeline env orderId db =
          handleCloudFulfillment env orderId o env.trace.stlPath
            (updateOrderRows orderId
              (fun o => { o with stl_path := env.trace.stlPath }) db) 1 := by
        unfold runOrderPipeline routeFulfillment
        rw [ho]
        dsimp only
        rw [if_pos h1, if_neg hp, if_pos hts, if_pos hf]
      have ho1 := lookup_update orderId
        (fun o => { o with stl_path := env.trace.stlPath }) (fun _ => rfl) ho
      obtain ⟨hres, o', ho', hc, hqid, hs1, hs2, hs3⟩ :=
        handleCloudFulfillment_spec env orderId o env.trace.stlPath _ 1 _ best ho1 hq
      rw [key, hres]
      exact ⟨rfl, rfl, rfl, ⟨o', ho', hc, hqid, hs1, hs2, hs3⟩,
        fun po => (runOrderPipeline_res_indep { env with placeOutcome := po } env
          orderId db rfl rfl).trans (by rw [key, hres])⟩
  · have key : runOrderPipeline env orderId db =
        handleCloudFulfillment env orderId o o.stl_path db 0 := by
      unfold runOrderPipeline routeFulfillment
      rw [ho]
      dsimp only
      rw [if_neg h1, if_pos hf]
    obtain ⟨hres, o', ho', hc, hqid, hs1, hs2, hs3⟩ :=
      handleCloudFulfillment_spec env orderId o o.stl_path db 0 o best ho hq
    rw [key, hres]
    exact ⟨rfl, rfl, rfl, ⟨o', ho', hc, hqid, hs1, hs2, hs3⟩,
      fun po => (runOrderPipeline_res_indep { env with placeOutcome := po } env
        orderId db rfl rfl).trans (by rw [key, hres])⟩

/-- The combined quote used by the C7 witness. -/
def bestQ : CombinedQuote := ⟨"cq-7", "v7", 31, some 6, 4, some "ship-7", 35⟩

/-- A confirmed CLOUD order with a model file, for the C7 witness. -/
def cloudOrder : Order :=
  { mkOrder "FFC-33333" "psid3" "uploads/c.jpg" with
    status := "confirmed", material := "PLA", size := "medium",
    fulfillment_type := "CLOUD", stl_path := "uploads/c.stl" }

/-- A pipeline environment whose vendor placement fails, for the C7 witness. -/
def envB : PipeEnv :=
  { trace := { success := true, stlPath := "uploads/999.stl", error := "" },
    quoteOutcome := .ok (some bestQ), apiKeySet := true,
    placeOutcome := .error "HTTP 500", statusWriteFails := false }

/-- C7 witness: with placement failing, the run still succeeds with the quote
summary, the quote fields are persisted, and the status is unchanged. -/
theorem cloud_quote_persisted_witness :
    (runOrderPipeline envB "FFC-33333" [cloudOrder]).res.success = true ∧
    (runOrderPipeline envB "FFC-33333" [cloudOrder]).res.craftcloudQuote =
      some { quoteId := bestQ.quoteId, totalPrice := bestQ.totalPrice,
             vendorId := bestQ.vendorId, leadDays := bestQ.leadDays } ∧
    (runOrderPipeline envB "FFC-33333" [cloudOrder]).res.error = none ∧
    (∃ o', getOrder "FFC-33333" (runOrderPipeline envB "FFC-33333" [cloudOrder]).db =
        some o' ∧
      o'.craftcloud_cost = bestQ.totalPrice ∧ o'.craftcloud_quote_id = bestQ.quoteId ∧
      (envB.apiKeySet = true → exceptOk envB.placeOutcome = true →
        o'.status = "in-progress") ∧
      (envB.apiKeySet = true → exceptOk envB.placeOutcome = false →
        o'.status = cloudOrder.status) ∧
      (envB.apiKeySet = false → o'.status = cloudOrder.status)) ∧
    (∀ po, (runOrderPipeline { envB with placeOutcome := po } "FFC-33333" [cloudOrder]).res =
      (runOrderPipeline envB "FFC-33333" [cloudOrder]).res) :=
  cloud_quote_persisted envB "FFC-33333" [cloudOrder] cloudOrder bestQ rfl (by decide) rfl
    (Or.inl (by decide))

/-! ### C3 — which outbound replies reach the Message log -/

/-- The two turns whose reply is sent without being logged: the empty-text
re-prompt at `PHOTO_RECEIVED` and the unrecognized-text re-prompt at
`QUOTE_SENT`. -/
def repromptTurn (message : InMsg) (db : ConvDb) : Prop :=
  (db.state.stage = "PHOTO_RECEIVED" ∧ jsTrim message.text = "") ∨
  (db.state.stage = "QUOTE_SENT" ∧
    confirmsQuote (jsUpper (jsTrim message.text)) = false ∧
    cancelsQuote (jsUpper (jsTrim message.text)) = false)

instance (message : InMsg) (db : ConvDb) : Decidable (repromptTurn message db) := by
  unfold repromptTurn
  infer_instance

/-- One logged reply: sending then saving the same text appends matching
entries to the transcript and the message log. -/
theorem sendAndSave_log (t : String) (db0 db : ConvDb)
    (hs : db0.sent = db.sent) (hm : db0.messages = db.messages) :
    ∃ ts, (saveMessageOut t (sendText t db0)).sent = db.sent ++ ts ∧
      (saveMessageOut t (sendText t db0)).messages =
        db.messages ++ ts.map (fun u => (⟨"out", u⟩ : Msg)) :=
  ⟨[t], by simp [hs], by simp [hm]⟩

/-- C3 counterexample: at `QUOTE_SENT`, the unrecognized reply "maybe" is
answered with a re-prompt through `sendText`, but no `out` record is appended
to the message log — the outbound reply is sent and not persisted. -/
theorem outbound_logging_counterexample :
    (handleIncoming ⟨"", "FFC-90000"⟩ "psid1" ⟨"maybe", []⟩ qsDb).1.sent =
      qsDb.sent ++ [quoteReprompt] ∧
    (handleIncoming ⟨"", "FFC-90000"⟩ "psid1" ⟨"maybe", []⟩ qsDb).1.messages =
      qsDb.messages := by
  decide

/-- C3 (amended): every outbound reply sent during a turn is appended to the
Message log as an `out` record with the same text, except in the two
re-prompt turns — the empty-text re-prompt of `handlePhotoReceived` and the
unrecognized-text re-prompt of `handleQuoteSent` — whose reply is sent but
not logged. -/
theorem outbound_replies_logged (env : ConvEnv) (psid : String) (message : InMsg)
    (db : ConvDb) :
    (¬ repromptTurn message db →
      ∃ ts, (handleIncoming env psid message db).1.sent = db.sent ++ ts ∧
        (handleIncoming env psid message db).1.messages =
          db.messages ++ ts.map (fun u => (⟨"out", u⟩ : Msg))) ∧
    (repromptTurn message db →
      ∃ t, (handleIncoming env psid message db).1.sent = db.sent ++ [t] ∧
        (handleIncoming env psid message db).1.messages = db.messages) := by
  constructor
  · intro hnot
    unfold handleIncoming handleNew processPhoto handlePhotoReceived handleDetailsReceived
      handleQuoteSent handleConfirmed
    dsimp only
    by_cases s1 : db.state.stage = "NEW"
    · rw [if_pos s1]
      by_cases himg : (message.attachments.any (fun a => a.type == "image")) = true
      · rw [if_pos himg]
        exact sendAndSave_log _ _ db (by simp) (by simp)
      · rw [if_neg himg]
        exact sendAndSave_log _ _ db (by simp) (by simp)
    · rw [if_neg s1]
      by_cases s2 : db.state.stage = "PHOTO_RECEIVED"
      · rw [if_pos s2]
        by_cases ht : jsTrim message.text = ""
        · exact absurd (Or.inl ⟨s2, ht⟩) hnot
        · rw [if_neg ht]
          exact sendAndSave_log _ _ db (by simp) (by simp)
      · rw [if_neg s2]
        by_cases s3 : db.state.stage = "DETAILS_RECEIVED"
        · rw [if_pos s3]
          split
          · exact ⟨[], by simp, by simp⟩
          · exact sendAndSave_log _ _ db (by simp) (by simp)
        · rw [if_neg s3]
          by_cases s4 : db.state.stage = "QUOTE_SENT"
          · rw [if_pos s4]
            by_cases hc : (jsIncludes (jsUpper (jsTrim message.text)) "YES" ||
                jsIncludes (jsUpper (jsTrim message.text)) "CONFIRM" ||
                jsIncludes (jsUpper (jsTrim message.text)) "APPROVE") = true
            · rw [if_pos hc]
              exact sendAndSave_log _ _ db (by simp) (by simp)
            · rw [if_neg hc]
              by_cases hx : (jsIncludes (jsUpper (jsTrim message.text)) "NO" ||
                  jsIncludes (jsUpper (jsTrim message.text)) "CANCEL") = true
              · rw [if_pos hx]
                exact sendAndSave_log _ _ db (by simp) (by simp)
              · refine absurd (Or.inr ⟨s4, ?_, ?_⟩) hnot
                · simpa [confirmsQuote, Bool.not_eq_true] using hc
                · simpa [cancelsQuote, Bool.not_eq_true] using hx
          · rw [if_neg s4]
            by_cases s5 : db.state.stage = "CONFIRMED"
            · rw [if_pos s5]
              by_cases himg : (message.attachments.any (fun a => a.type == "image")) = true
              · rw [if_pos himg]
                exact sendAndSave_log _ _ db (by simp) (by simp)
              · rw [if_neg himg]
                exact sendAndSave_log _ _ db (by simp) (by simp)
            · rw [if_neg s5]
              by_cases himg : (message.attachments.any (fun a => a.type == "image")) = true
              · rw [if_pos himg]
                exact sendAndSave_log _ _ db (by simp) (by simp)
              · rw [if_neg himg]
                exact sendAndSave_log _ _ db (by simp) (by simp)
  · intro hrep
    unfold handleIncoming handlePhotoReceived handleQuoteSent
    dsimp only
    rcases hrep with ⟨s2, ht⟩ | ⟨s4, hc, hx⟩
    · rw [if_neg (by rw [s2]; decide), if_pos s2, if_pos ht]
      exact ⟨detailsReprompt, by simp, by simp⟩
    · have hc' : ¬((jsIncludes (jsUpper (jsTrim message.text)) "YES" ||
          jsIncludes (jsUpper (jsTrim message.text)) "CONFIRM" ||
          jsIncludes (jsUpper (jsTrim message.text)) "APPROVE") = true) := by
        simpa [confirmsQuote, Bool.not_eq_true] using hc
      have hx' : ¬((jsIncludes (jsUpper (jsTrim message.text)) "NO" ||
          jsIncludes (jsUpper (jsTrim message.text)) "CANCEL") = true) := by
        simpa [cancelsQuote, Bool.not_eq_true] using hx
      rw [if_neg (by rw [s4]; decide), if_neg (by rw [s4]; decide),
        if_neg (by rw [s4]; decide), if_pos s4, if_neg hc', if_neg hx']
      exact ⟨quoteReprompt, by simp, by simp⟩

/-- A fresh customer database for conversation witnesses. -/
def newDb : ConvDb := { state := ⟨"NEW", ""⟩, orders := [], messages := [], sent := [] }

/-- C3 witness: a welcome turn at stage `NEW` appends its reply to both the
transcript and the message log. -/
theorem outbound_replies_logged_witness :
    ¬ repromptTurn ⟨"hello", []⟩ newDb ∧
    ∃ ts, (handleIncoming ⟨"", "FFC-1"⟩ "psid9" ⟨"hello", []⟩ newDb).1.sent =
        newDb.sent ++ ts ∧
      (handleIncoming ⟨"", "FFC-1"⟩ "psid9" ⟨"hello", []⟩ newDb).1.messages =
        newDb.messages ++ ts.map (fun u => (⟨"out", u⟩ : Msg)) :=
  ⟨by decide, (outbound_replies_logged ⟨"", "FFC-1"⟩ "psid9" ⟨"hello", []⟩ newDb).1 (by decide)⟩

/-! ### C4 — the stage invariant and the unknown-stage reset -/

/-- C4: after any turn the stored stage is one of the five named stages, and
a turn entered with a stage outside that set first resets the conversation
state to (`NEW`, empty pending reference) and then processes the message
exactly as the `NEW` handler would. -/
theorem stage_invariant (env : ConvEnv) (psid : String) (message : InMsg) (db : ConvDb) :
    (handleIncoming env psid message db).1.state.stage ∈ stageList ∧
    (db.state.stage ∉ stageList →
      handleIncoming env psid message db =
        handleNew env psid (jsTrim message.text)
          (message.attachments.any (fun a => a.type == "image"))
          message.attachments (setState "NEW" "" db)) := by
  constructor
  · unfold handleIncoming handleNew processPhoto handlePhotoReceived handleDetailsReceived
      handleQuoteSent handleConfirmed
    dsimp only
    by_cases s1 : db.state.stage = "NEW"
    · rw [if_pos s1]
      by_cases himg : (message.attachments.any (fun a => a.type == "image")) = true
      · rw [if_pos himg]; simp [stageList]
      · rw [if_neg himg]; simp [stageList, s1]
    · rw [if_neg s1]
      by_cases s2 : db.state.stage = "PHOTO_RECEIVED"
      · rw [if_pos s2]
        by_cases ht : jsTrim message.text = ""
        · rw [if_pos ht]; simp [stageList, s2]
        · rw [if_neg ht]; simp [stageList]
      · rw [if_neg s2]
        by_cases s3 : db.state.stage = "DETAILS_RECEIVED"
        · rw [if_pos s3]
          split
          · simp [stageList, s3]
          · simp [stageList]
        · rw [if_neg s3]
          by_cases s4 : db.state.stage = "QUOTE_SENT"
          · rw [if_pos s4]
            by_cases hc : (jsIncludes (jsUpper (jsTrim message.text)) "YES" ||
                jsIncludes (jsUpper (jsTrim message.text)) "CONFIRM" ||
                jsIncludes (jsUpper (jsTrim message.text)) "APPROVE") = true
            · rw [if_pos hc]; simp [stageList]
            · rw [if_neg hc]
              by_cases hx : (jsIncludes (jsUpper (jsTrim message.text)) "NO" ||
                  jsIncludes (jsUpper (jsTrim message.text)) "CANCEL") = true
              · rw [if_pos hx]; simp [stageList]
              · rw [if_neg hx]; simp [stageList, s4]
          · rw [if_neg s4]
            by_cases s5 : db.state.stage = "CONFIRMED"
            · rw [if_pos s5]
              by_cases himg : (message.attachments.any (fun a => a.type == "image")) = true
              · rw [if_pos himg]; simp [processPhoto, stageList]
              · rw [if_neg himg]; simp [stageList]
            · rw [if_neg s5]
              by_cases himg : (message.attachments.any (fun a => a.type == "image")) = true
              · rw [if_pos himg]; simp [processPhoto, stageList]
              · rw [if_neg himg]; simp [stageList]
  · intro h
    have h1 : db.state.stage ≠ "NEW" := fun e => h (by rw [e]; decide)
    have h2 : db.state.stage ≠ "PHOTO_RECEIVED" := fun e => h (by rw [e]; decide)
    have h3 : db.state.stage ≠ "DETAILS_RECEIVED" := fun e => h (by rw [e]; decide)
    have h4 : db.state.stage ≠ "QUOTE_SENT" := fun e => h (by rw [e]; decide)
    have h5 : db.state.stage ≠ "CONFIRMED" := fun e => h (by rw [e]; decide)
    unfold handleIncoming
    rw [if_neg h1, if_neg h2, if_neg h3, if_neg h4, if_neg h5]

/-- A database whose stored stage is corrupt, for the C4 witness. -/
def corruptDb : ConvDb :=
  { state := ⟨"LIMBO", "FFC-55555"⟩, orders := [], messages := [], sent := [] }

/-- C4 witness: a turn entered at the corrupt stage "LIMBO" ends in a named
stage and is processed exactly as the NEW handler on the reset state. -/
theorem stage_invariant_witness :
    ("LIMBO" ∉ stageList) ∧
    (handleIncoming ⟨"", "FFC-2"⟩ "psid8" ⟨"hi", []⟩ corruptDb).1.state.stage ∈ stageList ∧
    handleIncoming ⟨"", "FFC-2"⟩ "psid8" ⟨"hi", []⟩ corruptDb =
      handleNew ⟨"", "FFC-2"⟩ "psid8" (jsTrim "hi")
        ((([] : List Att)).any (fun a => a.type == "image")) ([] : List Att)
        (setState "NEW" "" corruptDb) :=
  ⟨by decide, (stage_invariant ⟨"", "FFC-2"⟩ "psid8" ⟨"hi", []⟩ corruptDb).1,
    (stage_invariant ⟨"", "FFC-2"⟩ "psid8" ⟨"hi", []⟩ corruptDb).2 (by decide)⟩

end FormFit
